import Mathlib

/-!
# xiaohongshu-mcp: browser session manager and action dispatch

A shallow embedding of `browser/browser.go` and `cmd/xhs/main.go`.

Go code with side effects is embedded as a function that returns the list of
effects it issues (in program order) together with the way control leaves the
function.  Everything the program obtains from outside (the cookie file, the
JSON decoder, the launcher, the control channel, the delegate action modules,
the file system) is read from a `World` value, so a statement quantified over
`World` speaks about every behaviour of these collaborators.
-/

namespace Xhs

/-! ## External values -/

/-- Go's `error` values, kept as their message. -/
abbrev Error := String

/-- The fields of `proto.NetworkCookie` that identify a cookie. -/
structure NetworkCookie where
  name : String
  value : String
  domain : String
deriving DecidableEq, Repr

/-- The settings held by a `launcher.Launcher` builder: the two toggles, the
binary override and the command-line flags that were `Set`, oldest first. -/
structure Launcher where
  headless : Bool
  leakless : Bool
  bin : Option String
  flags : List (String × List String)
deriving DecidableEq, Repr

namespace Launcher

/-- Builder `launcher.New()`: the library defaults (headless and leakless on). -/
def New : Launcher :=
  { headless := true, leakless := true, bin := none, flags := [] }

/-- Builder step `l.Headless(enable)`. -/
def Headless (l : Launcher) (enable : Bool) : Launcher :=
  { l with headless := enable }

/-- Builder step `l.Leakless(enable)`. -/
def Leakless (l : Launcher) (enable : Bool) : Launcher :=
  { l with leakless := enable }

/-- Builder step `l.Set(name, values...)`: a later `Set` of a name replaces the earlier one. -/
def Set (l : Launcher) (name : String) (values : List String) : Launcher :=
  { l with flags := l.flags.filter (fun kv => kv.1 != name) ++ [(name, values)] }

/-- Builder step `l.Bin(path)`. -/
def Bin (l : Launcher) (path : String) : Launcher :=
  { l with bin := some path }

/-- The values a flag was last `Set` to, if it was set. -/
def flag (l : Launcher) (name : String) : Option (List String) :=
  (l.flags.find? (fun kv => kv.1 == name)).map Prod.snd

end Launcher

/-- The type `*rod.Browser`: the control channel to a launched process. -/
structure RodBrowser where
  controlURL : String
deriving DecidableEq, Repr

/-- The type `*rod.Page`; `stealth` records that it was minted through `stealth.MustPage`. -/
structure Page where
  stealth : Bool
deriving DecidableEq, Repr

/-! ## `browser/browser.go` -/

/-- The struct `Browser`; a nil pointer field is `none`. -/
structure Browser where
  browser : Option RodBrowser
  launcher : Option Launcher
deriving DecidableEq, Repr

/-- The struct `browserConfig`. -/
structure browserConfig where
  headless : Bool
  binPath : String
  userAgent : String
  cookies : String
deriving DecidableEq, Repr

/-- The type `Option func(*browserConfig)`. -/
abbrev Option_ := browserConfig → browserConfig

/-- Function `WithBinPath(binPath)`. -/
def WithBinPath (binPath : String) : Option_ :=
  fun c => { c with binPath := binPath }

/-- Function `WithHeadless(headless)`. -/
def WithHeadless (headless : Bool) : Option_ :=
  fun c => { c with headless := headless }

/-- The user agent literal of `NewBrowser`. -/
def defaultUserAgent : String :=
  "Mozilla/5.0 (Windows NT 10.0; Win64; x64) AppleWebKit/537.36 (KHTML, like Gecko) Chrome/124.0.0.0 Safari/537.36"

/-- Effects issued by the program, as seen from outside it. -/
inductive Effect where
  | setenv (key value : String)
  | print (line : String)
  | logError (msg : String)
  | loadCookies
  | launch (l : Launcher)
  | connect (url : String)
  | setCookies (cks : List (Option NetworkCookie))
  | newPage
  | delegate (name : String) (args : List String)
  | writeFile (path data : String)
  | pageClose
  | browserClose
  | launcherCleanup
deriving DecidableEq, Repr

/-- What the collaborators outside the two source files answer during one run. -/
structure World where
  /-- Result of `cookieLoader.LoadCookies()` -/
  loadCookies : Except Error String
  /-- Result of `json.Unmarshal` into `[]*proto.NetworkCookie`: the decoded
  pointers (a JSON `null` entry is a nil pointer, `none`), or `none` on an error -/
  unmarshalCookies : String → Option (List (Option NetworkCookie))
  /-- Result of `l.MustLaunch()`: the control URL, or `none` when it panics -/
  mustLaunch : Launcher → Option String
  /-- Result of `rod.New().ControlURL(url).MustConnect()`: `false` when it panics -/
  mustConnect : String → Bool
  /-- Result of `b.MustSetCookies(cks...)`: `false` when it panics -/
  mustSetCookies : List (Option NetworkCookie) → Bool
  /-- Result of `stealth.MustPage(b)`: `false` when it panics -/
  mustPage : Bool
  /-- Result of `GetFeedDetailWithConfig(ctx, feedID, token, true, config)`, marshalled -/
  getFeedDetail : String → String → Except Error String
  /-- Result of `Search(ctx, keyword)`, marshalled -/
  search : String → Except Error String
  /-- Result of `NewPublishImageAction(page)` -/
  newPublishImageAction : Except Error Unit
  /-- Result of `action.Publish(ctx, payload)` -/
  publish : String → String → List String → List String → Except Error Unit
  /-- Result of `NewPublishVideoAction(page)` -/
  newPublishVideoAction : Except Error Unit
  /-- Result of `action.PublishVideo(ctx, payload)` -/
  publishVideo : String → String → List String → String → Except Error Unit
  /-- Result of `action.CheckLoginStatus(ctx)` -/
  checkLoginStatus : Except Error Bool
  /-- Result of `action.GetFeedsList(ctx)`, marshalled -/
  getFeedsList : Except Error String
  /-- Result of `os.WriteFile(output, data, 0644)` -/
  writeFile : String → String → Except Error Unit

/-- The configuration `NewBrowser` holds after its options loop (lines 42-48). -/
def NewBrowser.config (headless : Bool) (options : List Option_) : browserConfig :=
  options.foldl (fun cfg opt => opt cfg)
    { headless := headless, binPath := "", userAgent := defaultUserAgent, cookies := "" }

/-- The configuration after the cookie file was read (lines 51-56). -/
def NewBrowser.withCookies (w : World) (cfg : browserConfig) : browserConfig :=
  match w.loadCookies with
  | .ok data => { cfg with cookies := data }
  | .error _ => cfg

/-- The launcher `NewBrowser` builds from its configuration (lines 59-68). -/
def NewBrowser.launcher (cfg : browserConfig) : Launcher :=
  let l := ((Launcher.New.Headless cfg.headless).Leakless false).Set "--no-sandbox" []
  let l := if cfg.binPath != "" then l.Bin cfg.binPath else l
  l.Set "user-agent" [cfg.userAgent]

/-- Function `NewBrowser(headless, options...)`: the effects issued and the `*Browser`
returned, `none` when a `Must` call panicked. -/
def NewBrowser (w : World) (headless : Bool) (options : List Option_) :
    List Effect × Option Browser :=
  let cfg := NewBrowser.withCookies w (NewBrowser.config headless options)
  let l := NewBrowser.launcher cfg
  match w.mustLaunch l with
  | none => ([.loadCookies, .launch l], none)
  | some url =>
    if w.mustConnect url then
      let b : RodBrowser := { controlURL := url }
      if cfg.cookies != "" then
        match w.unmarshalCookies cfg.cookies with
        | some cks =>
          if w.mustSetCookies cks then
            ([.loadCookies, .launch l, .connect url, .setCookies cks],
              some { browser := some b, launcher := some l })
          else
            ([.loadCookies, .launch l, .connect url, .setCookies cks], none)
        | none =>
          ([.loadCookies, .launch l, .connect url],
            some { browser := some b, launcher := some l })
      else
        ([.loadCookies, .launch l, .connect url],
          some { browser := some b, launcher := some l })
    else
      ([.loadCookies, .launch l, .connect url], none)

/-- Method `(b *Browser) Close()`: the releases issued, and the `Browser` afterwards
(the method assigns to no field). -/
def Browser.Close (b : Browser) : List Effect × Browser :=
  let t₁ := if b.browser.isSome then [Effect.browserClose] else []
  let t₂ := if b.launcher.isSome then [Effect.launcherCleanup] else []
  (t₁ ++ t₂, b)

/-- Method `(b *Browser) NewPage()`: `stealth.MustPage(b.browser)`; `none` when it panics. -/
def Browser.NewPage (w : World) (_b : Browser) : List Effect × Option Page :=
  if w.mustPage then ([.newPage], some { stealth := true }) else ([.newPage], none)

/-! ## Control flow of a Go function: return, `os.Exit`, panic, `defer` -/

/-- How control leaves a function: it returns, the process is ended by
`os.Exit(code)`, or a panic propagates to the caller. -/
inductive Outcome where
  | returned
  | exited (code : Nat)
  | panicked
deriving DecidableEq, Repr

/-- The effects of a piece of code, in program order, and how control leaves it. -/
structure Run where
  trace : List Effect
  outcome : Outcome
deriving DecidableEq, Repr

/-- Sequencing: the effects `pre` were issued, then `r` ran. -/
def Run.after (pre : List Effect) (r : Run) : Run :=
  { trace := pre ++ r.trace, outcome := r.outcome }

/-- The rest of a function body `r` under a `defer` whose call issues `deferred`:
the deferred call runs when the body returns or panics; `os.Exit` ends the
process at once and deferred calls do not run. -/
def Run.deferring (deferred : List Effect) (r : Run) : Run :=
  match r.outcome with
  | .exited _ => r
  | .returned => { r with trace := r.trace ++ deferred }
  | .panicked => { r with trace := r.trace ++ deferred }

/-- The exit status of the process when `main` ends with the given outcome:
0 when `main` returns, the argument of `os.Exit`, and the status 2 with which
the Go runtime ends a process on an unrecovered panic. -/
def exitCode : Outcome → Nat
  | .returned => 0
  | .exited code => code
  | .panicked => 2

/-! ## `cmd/xhs/main.go` -/

/-- The statements of `fetchComments` after its two `defer` statements (lines 91-106). -/
def fetchComments.body (w : World) (feedID token output : String) : Run :=
  match w.getFeedDetail feedID token with
  | .error err =>
    { trace := [.delegate "GetFeedDetailWithConfig" [feedID, token],
                .logError ("抓取失败: " ++ err)],
      outcome := .exited 1 }
  | .ok data =>
    match w.writeFile output data with
    | .error err =>
      { trace := [.delegate "GetFeedDetailWithConfig" [feedID, token],
                  .writeFile output data, .logError ("保存失败: " ++ err)],
        outcome := .exited 1 }
    | .ok _ =>
      { trace := [.delegate "GetFeedDetailWithConfig" [feedID, token],
                  .writeFile output data,
                  .print ("抓取成功，数据已保存至: " ++ output)],
        outcome := .returned }

/-- Function `fetchComments(feedID, token, output, headless)`. -/
def fetchComments (w : World) (feedID token output : String) (headless : Bool) : Run :=
  match NewBrowser w headless [] with
  | (t, none) => { trace := t, outcome := .panicked }
  | (t, some b) =>
    Run.after t <| Run.deferring b.Close.1 <|
      match b.NewPage w with
      | (t, none) => { trace := t, outcome := .panicked }
      | (t, some _page) =>
        Run.after t <| Run.deferring [.pageClose] <|
          fetchComments.body w feedID token output

/-- The statements of `searchFeeds` after its two `defer` statements (lines 116-128). -/
def searchFeeds.body (w : World) (keyword output : String) : Run :=
  match w.search keyword with
  | .error err =>
    { trace := [.delegate "Search" [keyword], .logError ("搜索失败: " ++ err)],
      outcome := .exited 1 }
  | .ok data =>
    match w.writeFile output data with
    | .error err =>
      { trace := [.delegate "Search" [keyword], .writeFile output data,
                  .logError ("保存失败: " ++ err)],
        outcome := .exited 1 }
    | .ok _ =>
      { trace := [.delegate "Search" [keyword], .writeFile output data,
                  .print ("搜索成功，数据已保存至: " ++ output)],
        outcome := .returned }

/-- Function `searchFeeds(keyword, output, headless)`. -/
def searchFeeds (w : World) (keyword output : String) (headless : Bool) : Run :=
  match NewBrowser w headless [] with
  | (t, none) => { trace := t, outcome := .panicked }
  | (t, some b) =>
    Run.after t <| Run.deferring b.Close.1 <|
      match b.NewPage w with
      | (t, none) => { trace := t, outcome := .panicked }
      | (t, some _page) =>
        Run.after t <| Run.deferring [.pageClose] <|
          searchFeeds.body w keyword output

/-- The statements of `publishImage` after its two `defer` statements (lines 138-155). -/
def publishImage.body (w : World) (title content : String) (tags images : List String) : Run :=
  match w.newPublishImageAction with
  | .error err =>
    { trace := [.delegate "NewPublishImageAction" [],
                .logError ("进入发布页失败: " ++ err)],
      outcome := .exited 1 }
  | .ok _ =>
    match w.publish title content tags images with
    | .error err =>
      { trace := [.delegate "NewPublishImageAction" [],
                  .delegate "Publish" (title :: content :: (tags ++ images)),
                  .logError ("发布失败: " ++ err)],
        outcome := .exited 1 }
    | .ok _ =>
      { trace := [.delegate "NewPublishImageAction" [],
                  .delegate "Publish" (title :: content :: (tags ++ images)),
                  .print "🎉 图文笔记发布成功！"],
        outcome := .returned }

/-- Function `publishImage(title, content, tags, images, headless)`. -/
def publishImage (w : World) (title content : String) (tags images : List String)
    (headless : Bool) : Run :=
  match NewBrowser w headless [] with
  | (t, none) => { trace := t, outcome := .panicked }
  | (t, some b) =>
    Run.after t <| Run.deferring b.Close.1 <|
      match b.NewPage w with
      | (t, none) => { trace := t, outcome := .panicked }
      | (t, some _page) =>
        Run.after t <| Run.deferring [.pageClose] <|
          publishImage.body w title content tags images

/-- The statements of `publishVideo` after its two `defer` statements (lines 165-182). -/
def publishVideo.body (w : World) (title content : String) (tags : List String) (video : String) : Run :=
  match w.newPublishVideoAction with
  | .error err =>
    { trace := [.delegate "NewPublishVideoAction" [],
                .logError ("进入发布页失败: " ++ err)],
      outcome := .exited 1 }
  | .ok _ =>
    match w.publishVideo title content tags video with
    | .error err =>
      { trace := [.delegate "NewPublishVideoAction" [],
                  .delegate "PublishVideo" (title :: content :: (tags ++ [video])),
                  .logError ("发布失败: " ++ err)],
        outcome := .exited 1 }
    | .ok _ =>
      { trace := [.delegate "NewPublishVideoAction" [],
                  .delegate "PublishVideo" (title :: content :: (tags ++ [video])),
                  .print "🎉 视频笔记发布成功！"],
        outcome := .returned }

/-- Function `publishVideo(title, content, tags, video, headless)`. -/
def publishVideo (w : World) (title content : String) (tags : List String) (video : String)
    (headless : Bool) : Run :=
  match NewBrowser w headless [] with
  | (t, none) => { trace := t, outcome := .panicked }
  | (t, some b) =>
    Run.after t <| Run.deferring b.Close.1 <|
      match b.NewPage w with
      | (t, none) => { trace := t, outcome := .panicked }
      | (t, some _page) =>
        Run.after t <| Run.deferring [.pageClose] <|
          publishVideo.body w title content tags video

/-- The statements of `checkLogin` after its two `defer` statements (lines 192-204). -/
def checkLogin.body (w : World) : Run :=
  match w.checkLoginStatus with
  | .error err =>
    { trace := [.delegate "CheckLoginStatus" [],
                .print ("登录状态检查失败: " ++ err)],
      outcome := .exited 1 }
  | .ok isLogin =>
    if isLogin then
      { trace := [.delegate "CheckLoginStatus" [], .print "STATUS: LOGGED_IN"],
        outcome := .returned }
    else
      { trace := [.delegate "CheckLoginStatus" [], .print "STATUS: NOT_LOGGED_IN"],
        outcome := .exited 2 }

/-- Function `checkLogin(headless)`. -/
def checkLogin (w : World) (headless : Bool) : Run :=
  match NewBrowser w headless [] with
  | (t, none) => { trace := t, outcome := .panicked }
  | (t, some b) =>
    Run.after t <| Run.deferring b.Close.1 <|
      match b.NewPage w with
      | (t, none) => { trace := t, outcome := .panicked }
      | (t, some _page) =>
        Run.after t <| Run.deferring [.pageClose] <|
          checkLogin.body w

/-- The statements of `getRecommend` after its two `defer` statements (lines 214-226). -/
def getRecommend.body (w : World) (output : String) : Run :=
  match w.getFeedsList with
  | .error err =>
    { trace := [.delegate "GetFeedsList" [], .logError ("获取推荐列表失败: " ++ err)],
      outcome := .exited 1 }
  | .ok data =>
    match w.writeFile output data with
    | .error err =>
      { trace := [.delegate "GetFeedsList" [], .writeFile output data,
                  .logError ("保存结果失败: " ++ err)],
        outcome := .exited 1 }
    | .ok _ =>
      { trace := [.delegate "GetFeedsList" [], .writeFile output data,
                  .print ("推荐列表获取成功，数据已保存至: " ++ output)],
        outcome := .returned }

/-- Function `getRecommend(output, headless)`. -/
def getRecommend (w : World) (output : String) (headless : Bool) : Run :=
  match NewBrowser w headless [] with
  | (t, none) => { trace := t, outcome := .panicked }
  | (t, some b) =>
    Run.after t <| Run.deferring b.Close.1 <|
      match b.NewPage w with
      | (t, none) => { trace := t, outcome := .panicked }
      | (t, some _page) =>
        Run.after t <| Run.deferring [.pageClose] <|
          getRecommend.body w output

/-- The variables `flag.Parse()` fills in `main`. -/
structure Flags where
  action : String
  feedID : String
  token : String
  keyword : String
  output : String
  isHeadless : Bool
  title : String
  content : String
  tags : String
  images : String
  video : String
deriving DecidableEq, Repr

/-- The values of the variables when no flag is given on the command line. -/
def Flags.defaults : Flags :=
  { action := "fetch", feedID := "", token := "", keyword := "", output := "result.json",
    isHeadless := true, title := "", content := "", tags := "", images := "", video := "" }

/-- Function `main()` after `flag.Parse()`. -/
def main (w : World) (f : Flags) : Run :=
  Run.after [.setenv "ROD_LEAKLESS" "false"] <|
    if f.action = "fetch" then
      if f.feedID = "" ∨ f.token = "" then
        { trace := [.print "错误: fetch 操作需要提供 -id 和 -token"], outcome := .exited 1 }
      else fetchComments w f.feedID f.token f.output f.isHeadless
    else if f.action = "search" then
      if f.keyword = "" then
        { trace := [.print "错误: search 操作需要提供 -keyword"], outcome := .exited 1 }
      else searchFeeds w f.keyword f.output f.isHeadless
    else if f.action = "publish_image" then
      if f.title = "" ∨ f.content = "" ∨ f.images = "" then
        { trace := [.print "错误: publish_image 需要 -title, -content 和 -images"],
          outcome := .exited 1 }
      else publishImage w f.title f.content (f.tags.splitOn ",") (f.images.splitOn ",")
        f.isHeadless
    else if f.action = "publish_video" then
      if f.title = "" ∨ f.content = "" ∨ f.video = "" then
        { trace := [.print "错误: publish_video 需要 -title, -content 和 -video"],
          outcome := .exited 1 }
      else publishVideo w f.title f.content (f.tags.splitOn ",") f.video f.isHeadless
    else if f.action = "check_login" then checkLogin w f.isHeadless
    else if f.action = "recommend" then getRecommend w f.output f.isHeadless
    else
      { trace := [.print ("未知操作: " ++ f.action)], outcome := .exited 1 }

/-! ## Vocabulary of the properties -/

/-- An option as a caller of `NewBrowser` writes it: a call of one of the two
exported constructors. -/
inductive OptionCall where
  | withHeadless (headless : Bool)
  | withBinPath (binPath : String)
deriving DecidableEq, Repr

/-- The `Option` value an option call evaluates to. -/
def OptionCall.toOption : OptionCall → Option_
  | .withHeadless headless => WithHeadless headless
  | .withBinPath binPath => WithBinPath binPath

/-- The arguments of the `WithHeadless` calls in a list of option calls, in order. -/
def headlessArgs (calls : List OptionCall) : List Bool :=
  calls.filterMap fun c => match c with
    | .withHeadless h => some h
    | .withBinPath _ => none

/-- The arguments of the `WithBinPath` calls in a list of option calls, in order. -/
def binPathArgs (calls : List OptionCall) : List String :=
  calls.filterMap fun c => match c with
    | .withBinPath p => some p
    | .withHeadless _ => none

/-- The argument of the last `WithHeadless` call in a list of option calls. -/
def lastHeadless (calls : List OptionCall) : Option Bool :=
  (headlessArgs calls).getLast?

/-- The argument of the last `WithBinPath` call in a list of option calls. -/
def lastBinPath (calls : List OptionCall) : Option String :=
  (binPathArgs calls).getLast?

/-- Whether an effect releases a resource: the page, the control channel or
the launched process. -/
def Effect.isRelease : Effect → Bool
  | .pageClose => true
  | .browserClose => true
  | .launcherCleanup => true
  | _ => false

/-- The release effects of a trace, in order. -/
def releases (t : List Effect) : List Effect :=
  t.filter Effect.isRelease

/-- The launchers handed to `MustLaunch` in a trace, in order. -/
def launches (t : List Effect) : List Launcher :=
  t.filterMap fun e => match e with
    | .launch l => some l
    | _ => none

/-- The argument lists of the `MustSetCookies` calls in a trace, in order: what
the program asked the browser to set, whether or not the call went through. -/
def setCookiesCalls (t : List Effect) : List (List (Option NetworkCookie)) :=
  t.filterMap fun e => match e with
    | .setCookies cks => some cks
    | _ => none

/-- The configuration `NewBrowser` works with for a list of option calls, once
the cookie file was read. -/
def configOf (w : World) (headless : Bool) (calls : List OptionCall) : browserConfig :=
  NewBrowser.withCookies w (NewBrowser.config headless (calls.map OptionCall.toOption))

/-- The lines the six dispatch functions share (`NewBrowser`, `defer b.Close()`,
`NewPage`, `defer page.Close()`), followed by `body`. -/
def sessionRun (w : World) (headless : Bool) (body : Run) : Run :=
  match NewBrowser w headless [] with
  | (t, none) => { trace := t, outcome := .panicked }
  | (t, some b) =>
    Run.after t <| Run.deferring b.Close.1 <|
      match b.NewPage w with
      | (t, none) => { trace := t, outcome := .panicked }
      | (t, some _page) =>
        Run.after t <| Run.deferring [.pageClose] <| body

/-- The session of a run came up: `NewBrowser` returned a `Browser` and
`NewPage` returned a page. -/
def sessionUp (w : World) (headless : Bool) : Prop :=
  (NewBrowser w headless []).2.isSome = true ∧ w.mustPage = true

/-- A call that returns a Go `error` reported one. -/
def failed {α : Type} : Except Error α → Bool
  | .error _ => true
  | .ok _ => false

/-- The six operation kinds `main` knows. -/
def knownAction (action : String) : Prop :=
  action = "fetch" ∨ action = "search" ∨ action = "publish_image" ∨
  action = "publish_video" ∨ action = "check_login" ∨ action = "recommend"

/-- Invalid input: a required parameter of the chosen operation is empty, or
the action is none of the six known kinds. -/
def invalidInput (f : Flags) : Prop :=
  (f.action = "fetch" ∧ (f.feedID = "" ∨ f.token = "")) ∨
  (f.action = "search" ∧ f.keyword = "") ∨
  (f.action = "publish_image" ∧ (f.title = "" ∨ f.content = "" ∨ f.images = "")) ∨
  (f.action = "publish_video" ∧ (f.title = "" ∨ f.content = "" ∨ f.video = "")) ∨
  ¬ knownAction f.action

/-- The delegate action of the chosen operation reports an error, from its
constructor or from its execution method. -/
def delegateError (w : World) (f : Flags) : Prop :=
  (f.action = "fetch" ∧ failed (w.getFeedDetail f.feedID f.token) = true) ∨
  (f.action = "search" ∧ failed (w.search f.keyword) = true) ∨
  (f.action = "publish_image" ∧
    (failed w.newPublishImageAction = true ∨
     failed (w.publish f.title f.content (f.tags.splitOn ",") (f.images.splitOn ",")) = true)) ∨
  (f.action = "publish_video" ∧
    (failed w.newPublishVideoAction = true ∨
     failed (w.publishVideo f.title f.content (f.tags.splitOn ",") f.video) = true)) ∨
  (f.action = "check_login" ∧ failed w.checkLoginStatus = true) ∨
  (f.action = "recommend" ∧ failed w.getFeedsList = true)

/-- Writing the result file of the chosen operation fails. -/
def writeError (w : World) (f : Flags) : Prop :=
  (f.action = "fetch" ∧ ∃ data, w.getFeedDetail f.feedID f.token = .ok data ∧
    failed (w.writeFile f.output data) = true) ∨
  (f.action = "search" ∧ ∃ data, w.search f.keyword = .ok data ∧
    failed (w.writeFile f.output data) = true) ∨
  (f.action = "recommend" ∧ ∃ data, w.getFeedsList = .ok data ∧
    failed (w.writeFile f.output data) = true)

/-- The login check ran without error and found no logged-in user. -/
def notAuthenticated (w : World) (f : Flags) : Prop :=
  f.action = "check_login" ∧ w.checkLoginStatus = .ok false

/-- The body of the dispatch function `main` selects for an operation kind. -/
def dispatchBody (w : World) (f : Flags) : Run :=
  if f.action = "fetch" then fetchComments.body w f.feedID f.token f.output
  else if f.action = "search" then searchFeeds.body w f.keyword f.output
  else if f.action = "publish_image" then
    publishImage.body w f.title f.content (f.tags.splitOn ",") (f.images.splitOn ",")
  else if f.action = "publish_video" then
    publishVideo.body w f.title f.content (f.tags.splitOn ",") f.video
  else if f.action = "check_login" then checkLogin.body w
  else getRecommend.body w f.output

/-! ## Sample inputs -/

/-- A stored login cookie. -/
def sampleCookie : NetworkCookie :=
  { name := "web_session", value := "0400698f", domain := ".xiaohongshu.com" }

/-- A run in which every collaborator succeeds: no cookie file, the browser
launches and connects, every delegate returns without error and reports a
logged-in user. -/
def World.calm : World :=
  { loadCookies := .error "open cookies.json: no such file or directory"
    unmarshalCookies := fun _ => none
    mustLaunch := fun _ => some "ws://127.0.0.1:9222/devtools/browser/1"
    mustConnect := fun _ => true
    mustSetCookies := fun _ => true
    mustPage := true
    getFeedDetail := fun _ _ => .ok "null"
    search := fun _ => .ok "[]"
    newPublishImageAction := .ok ()
    publish := fun _ _ _ _ => .ok ()
    newPublishVideoAction := .ok ()
    publishVideo := fun _ _ _ _ => .ok ()
    checkLoginStatus := .ok true
    getFeedsList := .ok "[]"
    writeFile := fun _ _ => .ok () }

/-- As `World.calm`, with a stored cookie file that decodes to one cookie. -/
def World.withStoredCookies : World :=
  { World.calm with
    loadCookies := .ok "[web_session]"
    unmarshalCookies := fun data =>
      if data = "[web_session]" then some [some sampleCookie] else none }

/-- As `World.calm`, with a stored cookie file whose content is the JSON text
`[null]`: it decodes without error to one nil pointer, on which
`MustSetCookies` panics. -/
def World.nullCookie : World :=
  { World.calm with
    loadCookies := .ok "[null]"
    unmarshalCookies := fun data => if data = "[null]" then some [none] else none
    mustSetCookies := fun cks => cks.all Option.isSome }

/-- As `World.calm`, but the control channel cannot be established. -/
def World.connectFails : World :=
  { World.calm with mustConnect := fun _ => false }

/-- As `World.calm`, but the search delegate reports an error. -/
def World.searchFails : World :=
  { World.calm with search := fun _ => .error "context deadline exceeded" }

/-- As `World.calm`, but the login delegate finds no logged-in user. -/
def World.loggedOut : World :=
  { World.calm with checkLoginStatus := .ok false }

/-- The command line `-action search -keyword tea`. -/
def Flags.searchTea : Flags :=
  { Flags.defaults with action := "search", keyword := "tea" }

/-- The command line `-action check_login`. -/
def Flags.checkLogin : Flags :=
  { Flags.defaults with action := "check_login" }

/-- A `Browser` with both handles set. -/
def Browser.sample : Browser :=
  { browser := some { controlURL := "ws://127.0.0.1:9222/devtools/browser/1" }
    launcher := some (NewBrowser.launcher
      { headless := true, binPath := "", userAgent := defaultUserAgent, cookies := "" }) }

/-! ## Lemmas on `NewBrowser` -/

theorem config_foldl (calls : List OptionCall) (c : browserConfig) :
    ((calls.map OptionCall.toOption).foldl (fun cfg opt => opt cfg) c).headless
        = (lastHeadless calls).getD c.headless ∧
    ((calls.map OptionCall.toOption).foldl (fun cfg opt => opt cfg) c).binPath
        = (lastBinPath calls).getD c.binPath ∧
    ((calls.map OptionCall.toOption).foldl (fun cfg opt => opt cfg) c).userAgent
        = c.userAgent ∧
    ((calls.map OptionCall.toOption).foldl (fun cfg opt => opt cfg) c).cookies
        = c.cookies := by
  induction calls using List.reverseRecOn with
  | nil => simp [lastHeadless, lastBinPath, headlessArgs, binPathArgs]
  | append_singleton cs a ih =>
    obtain ⟨h1, h2, h3, h4⟩ := ih
    simp only [List.map_append, List.map_cons, List.map_nil, List.foldl_append, List.foldl_cons,
      List.foldl_nil]
    cases a <;>
      simp [lastHeadless, lastBinPath, headlessArgs, binPathArgs, OptionCall.toOption,
        WithHeadless, WithBinPath, List.filterMap_append, h1, h2, h3, h4]

theorem configOf_fields (w : World) (headless : Bool) (calls : List OptionCall) :
    (configOf w headless calls).headless = (lastHeadless calls).getD headless ∧
    (configOf w headless calls).binPath = (lastBinPath calls).getD "" ∧
    (configOf w headless calls).userAgent = defaultUserAgent ∧
    (configOf w headless calls).cookies
      = (match w.loadCookies with
         | .ok data => data
         | .error _ => "") := by
  obtain ⟨h1, h2, h3, h4⟩ := config_foldl calls
    { headless := headless, binPath := "", userAgent := defaultUserAgent, cookies := "" }
  unfold configOf NewBrowser.withCookies NewBrowser.config
  cases w.loadCookies <;> simp [h1, h2, h3, h4]

theorem launcher_fields (cfg : browserConfig) :
    (NewBrowser.launcher cfg).headless = cfg.headless ∧
    (NewBrowser.launcher cfg).leakless = false ∧
    (NewBrowser.launcher cfg).flag "--no-sandbox" = some [] ∧
    (NewBrowser.launcher cfg).flag "user-agent" = some [cfg.userAgent] ∧
    (NewBrowser.launcher cfg).bin = (if cfg.binPath = "" then none else some cfg.binPath) := by
  by_cases hb : cfg.binPath = "" <;>
    simp [NewBrowser.launcher, Launcher.flag, Launcher.Set, Launcher.New, Launcher.Headless,
      Launcher.Leakless, Launcher.Bin, hb]

theorem NewBrowser_releases (w : World) (headless : Bool) (options : List Option_) :
    releases (NewBrowser w headless options).1 = [] := by
  unfold NewBrowser
  simp only []
  split
  · rfl
  · split
    · split
      · split <;> [split; skip] <;> rfl
      · rfl
    · rfl

theorem NewBrowser_launches (w : World) (headless : Bool) (options : List Option_) :
    launches (NewBrowser w headless options).1
      = [NewBrowser.launcher
          (NewBrowser.withCookies w (NewBrowser.config headless options))] := by
  unfold NewBrowser
  simp only []
  split
  · rfl
  · split
    · split
      · split <;> [split; skip] <;> rfl
      · rfl
    · rfl

theorem NewBrowser_handles (w : World) (headless : Bool) (options : List Option_)
    (b : Browser) (h : (NewBrowser w headless options).2 = some b) :
    b.browser.isSome = true ∧
    b.launcher = some (NewBrowser.launcher
      (NewBrowser.withCookies w (NewBrowser.config headless options))) := by
  unfold NewBrowser at h
  simp only [] at h
  split at h
  · simp at h
  · split at h
    · split at h
      · split at h
        · split at h
          · simp at h; subst h; simp
          · simp at h
        · simp at h; subst h; simp
      · simp at h; subst h; simp
    · simp at h

/-- C9. Options are applied in the order supplied, last write wins: the
configuration `NewBrowser` computes from its positional argument and a list of
`WithHeadless` and `WithBinPath` options has `headless` equal to the argument
of the last `WithHeadless` (the positional argument when there is none) and
`binPath` equal to the argument of the last `WithBinPath` (the empty string
when there is none); an option for one field leaves every other field as it
was. -/
theorem newBrowser_options_last_write_wins (headless : Bool) (calls : List OptionCall) :
    (NewBrowser.config headless (calls.map OptionCall.toOption)).headless
      = (lastHeadless calls).getD headless ∧
    (NewBrowser.config headless (calls.map OptionCall.toOption)).binPath
      = (lastBinPath calls).getD "" ∧
    (∀ (x : Bool) (c : browserConfig),
      (WithHeadless x c).headless = x ∧ (WithHeadless x c).binPath = c.binPath ∧
      (WithHeadless x c).userAgent = c.userAgent ∧ (WithHeadless x c).cookies = c.cookies) ∧
    (∀ (p : String) (c : browserConfig),
      (WithBinPath p c).binPath = p ∧ (WithBinPath p c).headless = c.headless ∧
      (WithBinPath p c).userAgent = c.userAgent ∧ (WithBinPath p c).cookies = c.cookies) := by
  obtain ⟨h1, h2, _, _⟩ := config_foldl calls
    { headless := headless, binPath := "", userAgent := defaultUserAgent, cookies := "" }
  exact ⟨h1, h2, fun _ _ => ⟨rfl, rfl, rfl, rfl⟩, fun _ _ => ⟨rfl, rfl, rfl, rfl⟩⟩

/-- C10. Whatever the positional argument and the `WithHeadless` and
`WithBinPath` options, `NewBrowser` hands exactly one launcher to `MustLaunch`,
and that launcher has the `--no-sandbox` flag set, leakless off and the
`user-agent` flag set to the fixed default string, which is not empty; its
binary is overridden exactly when the configured `binPath` is not empty, and
then with that path. -/
theorem newBrowser_launch_settings (w : World) (headless : Bool) (calls : List OptionCall) :
    launches (NewBrowser w headless (calls.map OptionCall.toOption)).1
      = [NewBrowser.launcher (configOf w headless calls)] ∧
    (NewBrowser.launcher (configOf w headless calls)).flag "--no-sandbox" = some [] ∧
    (NewBrowser.launcher (configOf w headless calls)).leakless = false ∧
    (NewBrowser.launcher (configOf w headless calls)).flag "user-agent"
      = some [defaultUserAgent] ∧
    defaultUserAgent ≠ "" ∧
    ((NewBrowser.launcher (configOf w headless calls)).bin.isSome = true
      ↔ (lastBinPath calls).getD "" ≠ "") ∧
    (NewBrowser.launcher (configOf w headless calls)).bin
      = (if (lastBinPath calls).getD "" = "" then none
         else some ((lastBinPath calls).getD "")) := by
  obtain ⟨_, hb, hu, _⟩ := configOf_fields w headless calls
  obtain ⟨_, l2, l3, l4, l5⟩ := launcher_fields (configOf w headless calls)
  rw [hu] at l4
  rw [hb] at l5
  refine ⟨NewBrowser_launches w headless _, l3, l2, l4, by decide, ?_, l5⟩
  rw [l5]
  by_cases h : (lastBinPath calls).getD "" = "" <;> simp [h]

/-- C7, as stated, fails: with a stored cookie file holding `[null]`, which is
loaded without error, is not empty and decodes as a list, the browser launches
and connects, `MustSetCookies` is called with the decoded list and panics, and
`NewBrowser` returns no `Browser`. -/
theorem newBrowser_null_cookie_panics :
    World.nullCookie.loadCookies = .ok "[null]" ∧
    World.nullCookie.unmarshalCookies "[null]" = some [none] ∧
    World.nullCookie.mustLaunch (NewBrowser.launcher (configOf World.nullCookie true []))
      = some "ws://127.0.0.1:9222/devtools/browser/1" ∧
    World.nullCookie.mustConnect "ws://127.0.0.1:9222/devtools/browser/1" = true ∧
    NewBrowser World.nullCookie true []
      = ([.loadCookies, .launch (NewBrowser.launcher (configOf World.nullCookie true [])),
          .connect "ws://127.0.0.1:9222/devtools/browser/1", .setCookies [none]], none) :=
  ⟨rfl, rfl, rfl, rfl, rfl⟩

/-- C7, amended. When the browser launched and the control channel is
connected, `NewBrowser` calls `MustSetCookies` if and only if the cookie file
was loaded without error, its content is not empty and it decodes as a list of
cookies; the call is then made once, with exactly the decoded list, as the
last effect of `NewBrowser` after the connection, and `NewBrowser` returns a
`Browser` with both handles exactly when that call does not panic; when the
file is absent, empty or does not decode, no call is made and `NewBrowser`
returns a `Browser` with both handles. -/
theorem newBrowser_cookie_injection (w : World) (headless : Bool) (calls : List OptionCall)
    (url : String)
    (hl : w.mustLaunch (NewBrowser.launcher (configOf w headless calls)) = some url)
    (hc : w.mustConnect url = true) :
    (setCookiesCalls (NewBrowser w headless (calls.map OptionCall.toOption)).1 ≠ []
      ↔ ∃ data cks, w.loadCookies = .ok data ∧ data ≠ "" ∧
          w.unmarshalCookies data = some cks) ∧
    (∀ data cks, w.loadCookies = .ok data → data ≠ "" →
      w.unmarshalCookies data = some cks →
      NewBrowser w headless (calls.map OptionCall.toOption)
        = ([.loadCookies, .launch (NewBrowser.launcher (configOf w headless calls)),
            .connect url, .setCookies cks],
           if w.mustSetCookies cks then
             some { browser := some { controlURL := url },
                    launcher := some (NewBrowser.launcher (configOf w headless calls)) }
           else none) ∧
      setCookiesCalls (NewBrowser w headless (calls.map OptionCall.toOption)).1 = [cks] ∧
      ((NewBrowser w headless (calls.map OptionCall.toOption)).2.isSome = true
        ↔ w.mustSetCookies cks = true)) ∧
    (∀ err, w.loadCookies = .error err →
      NewBrowser w headless (calls.map OptionCall.toOption)
        = ([.loadCookies, .launch (NewBrowser.launcher (configOf w headless calls)),
            .connect url],
           some { browser := some { controlURL := url },
                  launcher := some (NewBrowser.launcher (configOf w headless calls)) })) ∧
    (∀ data, w.loadCookies = .ok data → (data = "" ∨ w.unmarshalCookies data = none) →
      NewBrowser w headless (calls.map OptionCall.toOption)
        = ([.loadCookies, .launch (NewBrowser.launcher (configOf w headless calls)),
            .connect url],
           some { browser := some { controlURL := url },
                  launcher := some (NewBrowser.launcher (configOf w headless calls)) })) := by
  have hck := (configOf_fields w headless calls).2.2.2
  unfold configOf at hl hck ⊢
  unfold NewBrowser
  simp only [hl, hc, if_true]
  rw [hck]
  cases hload : w.loadCookies with
  | error e => simp [setCookiesCalls]
  | ok data =>
    simp only []
    by_cases hd : data = ""
    · subst hd
      simp only [setCookiesCalls]
      simp
      intro d _ h1 h2
      exact absurd h1.symm h2
    · cases hu : w.unmarshalCookies data with
      | none =>
        simp only [setCookiesCalls]
        simp [hd]
        refine ⟨by simp [hu], ?_⟩
        intro d c h1 _
        subst h1
        simp [hu]
      | some cks =>
        have key : ∀ (d : String) (c : List (Option NetworkCookie)), data = d →
            w.unmarshalCookies d = some c → cks = c := by
          intro d c h1 h2
          subst h1
          rw [hu] at h2
          exact Option.some.inj h2
        refine ⟨?_, ?_, ?_, ?_⟩
        · by_cases hs : w.mustSetCookies cks = true <;>
            simp [setCookiesCalls, hd, hs, hu]
        · intro d c h1 h2 h3
          injection h1 with h1
          obtain rfl := key d c h1 h3
          by_cases hs : w.mustSetCookies cks = true <;>
            simp [setCookiesCalls, hd, hs]
        · intro err h1
          cases h1
        · intro d h1 h2
          injection h1 with h1
          subst h1
          rcases h2 with h2 | h2
          · exact absurd h2 hd
          · rw [hu] at h2; cases h2

/-- C7, amended, at a stored cookie file holding one cookie: `MustSetCookies`
is called with that cookie, last, and `NewBrowser` returns a `Browser`. -/
theorem newBrowser_cookie_injection_witness :
    NewBrowser World.withStoredCookies true []
      = ([.loadCookies,
          .launch (NewBrowser.launcher (configOf World.withStoredCookies true [])),
          .connect "ws://127.0.0.1:9222/devtools/browser/1",
          .setCookies [some sampleCookie]],
         if World.withStoredCookies.mustSetCookies [some sampleCookie] then
           some { browser := some { controlURL := "ws://127.0.0.1:9222/devtools/browser/1" },
                  launcher := some
                    (NewBrowser.launcher (configOf World.withStoredCookies true [])) }
         else none) ∧
    setCookiesCalls (NewBrowser World.withStoredCookies true []).1 = [[some sampleCookie]] ∧
    ((NewBrowser World.withStoredCookies true []).2.isSome = true
      ↔ World.withStoredCookies.mustSetCookies [some sampleCookie] = true) :=
  (newBrowser_cookie_injection World.withStoredCookies true []
    "ws://127.0.0.1:9222/devtools/browser/1" rfl rfl).2.1
    "[web_session]" [some sampleCookie] rfl (by decide) rfl

/-- C2, as stated, fails: with a browser that launches and a control channel
that cannot be established, `NewBrowser` panics after the launch and the
connection attempt, and no launcher cleanup was issued. -/
theorem newBrowser_connect_failure_no_cleanup :
    World.connectFails.mustLaunch (NewBrowser.launcher (configOf World.connectFails true []))
      = some "ws://127.0.0.1:9222/devtools/browser/1" ∧
    World.connectFails.mustConnect "ws://127.0.0.1:9222/devtools/browser/1" = false ∧
    NewBrowser World.connectFails true []
      = ([.loadCookies, .launch (NewBrowser.launcher (configOf World.connectFails true [])),
          .connect "ws://127.0.0.1:9222/devtools/browser/1"], none) ∧
    Effect.launcherCleanup ∉ (NewBrowser World.connectFails true []).1 := by
  refine ⟨rfl, rfl, rfl, ?_⟩
  decide

/-- C2, amended. When the browser launches and the control channel cannot be
established, `NewBrowser` panics right after the connection attempt; no call of
`NewBrowser` issues a release (neither a launcher cleanup nor a close), and
every call that returns gives a `Browser` with both handles set. -/
theorem newBrowser_initialised_or_panics (w : World) (headless : Bool)
    (calls : List OptionCall) :
    (∀ url, w.mustLaunch (NewBrowser.launcher (configOf w headless calls)) = some url →
      w.mustConnect url = false →
      NewBrowser w headless (calls.map OptionCall.toOption)
        = ([.loadCookies, .launch (NewBrowser.launcher (configOf w headless calls)),
            .connect url], none)) ∧
    releases (NewBrowser w headless (calls.map OptionCall.toOption)).1 = [] ∧
    (∀ b, (NewBrowser w headless (calls.map OptionCall.toOption)).2 = some b →
      b.browser.isSome = true ∧
      b.launcher = some (NewBrowser.launcher (configOf w headless calls))) := by
  refine ⟨?_, NewBrowser_releases w headless _, fun b hb => NewBrowser_handles w headless _ b hb⟩
  intro url hl hc
  unfold configOf at hl
  unfold NewBrowser configOf
  simp [hl, hc]

/-- C3, as stated, fails: two calls of `Close` in a row on a `Browser` with
both handles set close the control channel twice and clean the launched
process up twice; the second call issues both releases again. -/
theorem close_twice_releases_twice :
    Browser.sample.Close.1 ++ Browser.sample.Close.2.Close.1
      = [.browserClose, .launcherCleanup, .browserClose, .launcherCleanup] ∧
    Browser.sample.Close.2.Close.1 = [.browserClose, .launcherCleanup] ∧
    (Browser.sample.Close.1 ++ Browser.sample.Close.2.Close.1).count .browserClose = 2 ∧
    (Browser.sample.Close.1 ++ Browser.sample.Close.2.Close.1).count .launcherCleanup = 2 := by
  refine ⟨rfl, rfl, ?_, ?_⟩ <;> decide

/-- C3, amended. A call of `Close` leaves the `Browser` as it was and issues, in
this order, one close of the control channel when that handle is set and one
cleanup of the launched process when that handle is set; a second call in a
row issues the same releases again, so it issues none only when both handles
are nil. -/
theorem close_repeats_releases (b : Browser) :
    b.Close.2 = b ∧
    b.Close.1 = (if b.browser.isSome then [Effect.browserClose] else []) ++
                (if b.launcher.isSome then [Effect.launcherCleanup] else []) ∧
    b.Close.2.Close.1 = b.Close.1 ∧
    (b.Close.2.Close.1 = [] ↔ b.browser = none ∧ b.launcher = none) := by
  refine ⟨rfl, rfl, rfl, ?_⟩
  rcases b with ⟨_ | rb, _ | l⟩ <;> simp [Browser.Close]

/-! ## Lemmas on the dispatch functions -/

theorem releases_append (s t : List Effect) : releases (s ++ t) = releases s ++ releases t := by
  simp [releases]

theorem launches_append (s t : List Effect) : launches (s ++ t) = launches s ++ launches t := by
  simp [launches]

theorem fetchComments_eq (w : World) (feedID token output : String) (headless : Bool) :
    fetchComments w feedID token output headless
      = sessionRun w headless (fetchComments.body w feedID token output) := rfl

theorem searchFeeds_eq (w : World) (keyword output : String) (headless : Bool) :
    searchFeeds w keyword output headless
      = sessionRun w headless (searchFeeds.body w keyword output) := rfl

theorem publishImage_eq (w : World) (title content : String) (tags images : List String)
    (headless : Bool) :
    publishImage w title content tags images headless
      = sessionRun w headless (publishImage.body w title content tags images) := rfl

theorem publishVideo_eq (w : World) (title content : String) (tags : List String)
    (video : String) (headless : Bool) :
    publishVideo w title content tags video headless
      = sessionRun w headless (publishVideo.body w title content tags video) := rfl

theorem checkLogin_eq (w : World) (headless : Bool) :
    checkLogin w headless = sessionRun w headless (checkLogin.body w) := rfl

theorem getRecommend_eq (w : World) (output : String) (headless : Bool) :
    getRecommend w output headless = sessionRun w headless (getRecommend.body w output) := rfl

/-- The run of a dispatch function whose session came up: the effects of
`NewBrowser`, the page, the body, and then the deferred closes unless the body
ended the process. -/
theorem sessionRun_up (w : World) (headless : Bool) (body : Run)
    (hs : sessionUp w headless) :
    sessionRun w headless body
      = { trace := (NewBrowser w headless []).1 ++ [.newPage] ++ body.trace ++
            (match body.outcome with
             | .exited _ => []
             | _ => [.pageClose, .browserClose, .launcherCleanup]),
          outcome := body.outcome } := by
  obtain ⟨h1, h2⟩ := hs
  have hh := NewBrowser_handles w headless []
  unfold sessionRun
  rcases hnb : NewBrowser w headless [] with ⟨t, _ | b⟩
  · rw [hnb] at h1; simp at h1
  · rw [hnb] at hh
    obtain ⟨hb1, hb2⟩ := hh b rfl
    rcases body with ⟨bt, _ | c | _⟩ <;>
      simp [Browser.NewPage, h2, Run.after, Run.deferring, Browser.Close, hb1, hb2]

/-- A dispatch function ends the way its body does, or panics before it. -/
theorem sessionRun_outcome (w : World) (headless : Bool) (body : Run) :
    (sessionUp w headless ∧ (sessionRun w headless body).outcome = body.outcome) ∨
    (¬ sessionUp w headless ∧ (sessionRun w headless body).outcome = .panicked) := by
  by_cases hs : sessionUp w headless
  · left; exact ⟨hs, by rw [sessionRun_up w headless body hs]⟩
  · right
    refine ⟨hs, ?_⟩
    unfold sessionUp at hs
    unfold sessionRun
    rcases hnb : NewBrowser w headless [] with ⟨t, _ | b⟩
    · rfl
    · rw [hnb] at hs
      have hp : w.mustPage = false := by simpa using hs
      simp [Browser.NewPage, hp, Run.after, Run.deferring]

theorem sessionRun_launches (w : World) (headless : Bool) (body : Run)
    (hb : launches body.trace = []) :
    launches (sessionRun w headless body).trace
      = [NewBrowser.launcher (NewBrowser.withCookies w (NewBrowser.config headless []))] := by
  have hl := NewBrowser_launches w headless []
  unfold sessionRun
  rcases hnb : NewBrowser w headless [] with ⟨t, _ | b⟩
  · rw [hnb] at hl; simpa using hl
  · rw [hnb] at hl
    simp only [] at hl ⊢
    have hc : launches b.Close.1 = [] := by
      rcases b with ⟨_ | rb, _ | l⟩ <;> rfl
    have hn : ∀ u, launches (Effect.newPage :: u) = launches u := fun _ => rfl
    have hq : ∀ u, launches (Effect.pageClose :: u) = launches u := fun _ => rfl
    rcases body with ⟨bt, _ | c | _⟩ <;> cases hp : w.mustPage <;>
      simp_all [Browser.NewPage, Run.after, Run.deferring, launches_append]

theorem main_invalid (w : World) (f : Flags) (h : invalidInput f) :
    ∃ msg, main w f
      = { trace := [.setenv "ROD_LEAKLESS" "false", .print msg], outcome := .exited 1 } := by
  unfold invalidInput knownAction at h
  unfold main
  by_cases h1 : f.action = "fetch"
  · have : f.feedID = "" ∨ f.token = "" := by
      rcases h with h | h | h | h | h
      · exact h.2
      · rw [h1] at h; simp at h
      · rw [h1] at h; simp at h
      · rw [h1] at h; simp at h
      · exact absurd (Or.inl h1) h
    simp only [if_pos h1, if_pos this]
    exact ⟨_, rfl⟩
  by_cases h2 : f.action = "search"
  · have : f.keyword = "" := by
      rcases h with h | h | h | h | h
      · exact absurd h.1 h1
      · exact h.2
      · rw [h2] at h; simp at h
      · rw [h2] at h; simp at h
      · exact absurd (Or.inr (Or.inl h2)) h
    simp only [if_neg h1, if_pos h2, if_pos this]
    exact ⟨_, rfl⟩
  by_cases h3 : f.action = "publish_image"
  · have : f.title = "" ∨ f.content = "" ∨ f.images = "" := by
      rcases h with h | h | h | h | h
      · exact absurd h.1 h1
      · exact absurd h.1 h2
      · exact h.2
      · rw [h3] at h; simp at h
      · exact absurd (Or.inr (Or.inr (Or.inl h3))) h
    simp only [if_neg h1, if_neg h2, if_pos h3, if_pos this]
    exact ⟨_, rfl⟩
  by_cases h4 : f.action = "publish_video"
  · have : f.title = "" ∨ f.content = "" ∨ f.video = "" := by
      rcases h with h | h | h | h | h
      · exact absurd h.1 h1
      · exact absurd h.1 h2
      · exact absurd h.1 h3
      · exact h.2
      · exact absurd (Or.inr (Or.inr (Or.inr (Or.inl h4)))) h
    simp only [if_neg h1, if_neg h2, if_neg h3, if_pos h4, if_pos this]
    exact ⟨_, rfl⟩
  have h56 : ¬ f.action = "check_login" ∧ ¬ f.action = "recommend" := by
    rcases h with h | h | h | h | h
    · exact absurd h.1 h1
    · exact absurd h.1 h2
    · exact absurd h.1 h3
    · exact absurd h.1 h4
    · exact ⟨fun e => h (by simp [e]), fun e => h (by simp [e])⟩
  simp only [if_neg h1, if_neg h2, if_neg h3, if_neg h4, if_neg h56.1, if_neg h56.2]
  exact ⟨_, rfl⟩

theorem main_valid (w : World) (f : Flags) (h : ¬ invalidInput f) :
    main w f = Run.after [.setenv "ROD_LEAKLESS" "false"]
      (sessionRun w f.isHeadless (dispatchBody w f)) := by
  unfold invalidInput knownAction at h
  unfold main dispatchBody
  by_cases h1 : f.action = "fetch"
  · have : ¬ (f.feedID = "" ∨ f.token = "") := fun e => h (Or.inl ⟨h1, e⟩)
    simp only [if_pos h1, if_neg this, fetchComments_eq]
  by_cases h2 : f.action = "search"
  · have : ¬ f.keyword = "" := fun e => h (Or.inr (Or.inl ⟨h2, e⟩))
    simp only [if_neg h1, if_pos h2, if_neg this, searchFeeds_eq]
  by_cases h3 : f.action = "publish_image"
  · have : ¬ (f.title = "" ∨ f.content = "" ∨ f.images = "") :=
      fun e => h (Or.inr (Or.inr (Or.inl ⟨h3, e⟩)))
    simp only [if_neg h1, if_neg h2, if_pos h3, if_neg this, publishImage_eq]
  by_cases h4 : f.action = "publish_video"
  · have : ¬ (f.title = "" ∨ f.content = "" ∨ f.video = "") :=
      fun e => h (Or.inr (Or.inr (Or.inr (Or.inl ⟨h4, e⟩))))
    simp only [if_neg h1, if_neg h2, if_neg h3, if_pos h4, if_neg this, publishVideo_eq]
  by_cases h5 : f.action = "check_login"
  · simp only [if_neg h1, if_neg h2, if_neg h3, if_neg h4, if_pos h5, checkLogin_eq]
  by_cases h6 : f.action = "recommend"
  · simp only [if_neg h1, if_neg h2, if_neg h3, if_neg h4, if_neg h5, if_pos h6, getRecommend_eq]
  · exact absurd (Or.inr (Or.inr (Or.inr (Or.inr
      (fun e => e.elim h1 (fun e => e.elim h2 (fun e => e.elim h3 (fun e => e.elim h4
        (fun e => e.elim h5 h6))))))))) h

/-- No body launches a browser or releases a resource itself. -/
theorem dispatchBody_quiet (w : World) (f : Flags) :
    launches (dispatchBody w f).trace = [] ∧ releases (dispatchBody w f).trace = [] := by
  unfold dispatchBody
  split_ifs
  · unfold fetchComments.body
    split <;> [skip; split] <;> exact ⟨rfl, rfl⟩
  · unfold searchFeeds.body
    split <;> [skip; split] <;> exact ⟨rfl, rfl⟩
  · unfold publishImage.body
    split <;> [skip; split] <;> exact ⟨rfl, rfl⟩
  · unfold publishVideo.body
    split <;> [skip; split] <;> exact ⟨rfl, rfl⟩
  · unfold checkLogin.body
    split <;> [skip; split] <;> exact ⟨rfl, rfl⟩
  · unfold getRecommend.body
    split <;> [skip; split] <;> exact ⟨rfl, rfl⟩

/-- How the body of a valid run ends, by what the collaborators answered. -/
theorem dispatchBody_outcome (w : World) (f : Flags) (h : ¬ invalidInput f) :
    (delegateError w f → (dispatchBody w f).outcome = .exited 1) ∧
    (writeError w f → (dispatchBody w f).outcome = .exited 1) ∧
    (notAuthenticated w f → (dispatchBody w f).outcome = .exited 2) ∧
    (¬ delegateError w f → ¬ writeError w f → ¬ notAuthenticated w f →
      (dispatchBody w f).outcome = .returned) := by
  have hk : knownAction f.action := by
    by_contra hk
    exact h (Or.inr (Or.inr (Or.inr (Or.inr hk))))
  unfold delegateError writeError notAuthenticated dispatchBody
  rcases hk with h1 | h1 | h1 | h1 | h1 | h1 <;> rw [h1] <;>
    simp only [fetchComments.body, searchFeeds.body, publishImage.body, publishVideo.body,
      checkLogin.body, getRecommend.body]
  · cases hd : w.getFeedDetail f.feedID f.token with
    | error e => simp [failed]
    | ok data => cases hw : w.writeFile f.output data <;> simp [failed, hw]
  · cases hd : w.search f.keyword with
    | error e => simp [failed]
    | ok data => cases hw : w.writeFile f.output data <;> simp [failed, hw]
  · cases hd : w.newPublishImageAction with
    | error e => simp [failed]
    | ok u =>
      cases hw : w.publish f.title f.content (f.tags.splitOn ",") (f.images.splitOn ",") <;>
        simp [failed, hw]
  · cases hd : w.newPublishVideoAction with
    | error e => simp [failed]
    | ok u =>
      cases hw : w.publishVideo f.title f.content (f.tags.splitOn ",") f.video <;>
        simp [failed, hw]
  · cases hd : w.checkLoginStatus with
    | error e => simp [failed]
    | ok b => cases b <;> simp [failed]
  · cases hd : w.getFeedsList with
    | error e => simp [failed]
    | ok data => cases hw : w.writeFile f.output data <;> simp [failed, hw]

/-- A run that `os.Exit` ended issued no release: the deferred closes did not run. -/
theorem exited_run_releases_nothing (w : World) (f : Flags) (c : Nat)
    (h : (main w f).outcome = .exited c) : releases (main w f).trace = [] := by
  by_cases hi : invalidInput f
  · obtain ⟨msg, hm⟩ := main_invalid w f hi
    rw [hm]; rfl
  · rw [main_valid w f hi] at h ⊢
    rcases sessionRun_outcome w f.isHeadless (dispatchBody w f) with ⟨hs, ho⟩ | ⟨_, ho⟩
    · have hb : (dispatchBody w f).outcome = .exited c := by
        rw [← ho]; exact h
      rw [sessionRun_up w f.isHeadless _ hs]
      simp only [Run.after, hb, releases_append, NewBrowser_releases,
        (dispatchBody_quiet w f).2]
      rfl
    · simp only [Run.after] at h
      rw [ho] at h
      cases h

/-- A run that returned released, in this order and once each, the page, the
control channel and the launched process. -/
theorem returned_run_releases (w : World) (f : Flags)
    (h : (main w f).outcome = .returned) :
    releases (main w f).trace = [.pageClose, .browserClose, .launcherCleanup] := by
  by_cases hi : invalidInput f
  · obtain ⟨msg, hm⟩ := main_invalid w f hi
    rw [hm] at h; cases h
  · rw [main_valid w f hi] at h ⊢
    rcases sessionRun_outcome w f.isHeadless (dispatchBody w f) with ⟨hs, ho⟩ | ⟨_, ho⟩
    · have hb : (dispatchBody w f).outcome = .returned := by
        rw [← ho]; exact h
      rw [sessionRun_up w f.isHeadless _ hs]
      simp only [Run.after, hb, releases_append, NewBrowser_releases,
        (dispatchBody_quiet w f).2]
      rfl
    · simp only [Run.after] at h
      rw [ho] at h
      cases h

theorem main_outcome_up (w : World) (f : Flags) (hi : ¬ invalidInput f)
    (hs : sessionUp w f.isHeadless) :
    (main w f).outcome = (dispatchBody w f).outcome := by
  rw [main_valid w f hi, sessionRun_up w f.isHeadless _ hs]
  rfl

/-- C4. Required parameters are validated before any session is launched: on
invalid input (an empty required parameter of the chosen operation, or an
unknown action) `main` only sets the environment variable, prints one line and
exits with code 1, so no browser is launched; on every other input exactly one
launcher is handed to `MustLaunch`, the one `NewBrowser` builds. -/
theorem main_validates_before_launch (w : World) (f : Flags) :
    (invalidInput f →
      (∃ msg, (main w f).trace = [.setenv "ROD_LEAKLESS" "false", .print msg]) ∧
      (main w f).outcome = .exited 1 ∧ exitCode (main w f).outcome = 1 ∧
      launches (main w f).trace = [] ∧ Effect.loadCookies ∉ (main w f).trace) ∧
    (¬ invalidInput f →
      launches (main w f).trace
        = [NewBrowser.launcher
            (NewBrowser.withCookies w (NewBrowser.config f.isHeadless []))] ∧
      (launches (main w f).trace).length = 1) := by
  constructor
  · intro hi
    obtain ⟨msg, hm⟩ := main_invalid w f hi
    rw [hm]
    exact ⟨⟨msg, rfl⟩, rfl, rfl, rfl, by simp⟩
  · intro hi
    have hl : launches (main w f).trace
        = [NewBrowser.launcher
            (NewBrowser.withCookies w (NewBrowser.config f.isHeadless []))] := by
      rw [main_valid w f hi]
      simp only [Run.after, launches_append,
        sessionRun_launches w f.isHeadless _ (dispatchBody_quiet w f).1]
      rfl
    exact ⟨hl, by rw [hl]; rfl⟩

/-- C5, as stated, fails: a run with invalid input (fetch without id and token)
and a run whose delegate action reports an error (a failing search) both end
with exit code 1. -/
theorem invalid_input_and_failure_share_exit_code :
    invalidInput Flags.defaults ∧
    exitCode (main World.calm Flags.defaults).outcome = 1 ∧
    (¬ invalidInput Flags.searchTea) ∧
    delegateError World.searchFails Flags.searchTea ∧
    exitCode (main World.searchFails Flags.searchTea).outcome = 1 := by
  refine ⟨Or.inl ⟨rfl, Or.inl rfl⟩, rfl, ?_, Or.inr (Or.inl ⟨rfl, rfl⟩), rfl⟩
  unfold invalidInput knownAction
  decide

/-- C5, amended. With the session up, the exit code of a run is 1 on invalid
input, 1 when the delegate action reports an error or the result file cannot
be written, 2 when the login check finds no logged-in user, and 0 on success;
so success, not-authenticated and failure have three different codes, and
invalid input and operational failure share the code 1. -/
theorem exit_codes_by_outcome (w : World) (f : Flags) (hs : sessionUp w f.isHeadless) :
    (invalidInput f → exitCode (main w f).outcome = 1) ∧
    (¬ invalidInput f → delegateError w f → exitCode (main w f).outcome = 1) ∧
    (¬ invalidInput f → writeError w f → exitCode (main w f).outcome = 1) ∧
    (¬ invalidInput f → notAuthenticated w f → exitCode (main w f).outcome = 2) ∧
    (¬ invalidInput f → ¬ delegateError w f → ¬ writeError w f → ¬ notAuthenticated w f →
      exitCode (main w f).outcome = 0) := by
  refine ⟨?_, ?_, ?_, ?_, ?_⟩
  · intro hi
    obtain ⟨msg, hm⟩ := main_invalid w f hi
    rw [hm]; rfl
  · intro hi hd
    rw [main_outcome_up w f hi hs, (dispatchBody_outcome w f hi).1 hd]; rfl
  · intro hi hd
    rw [main_outcome_up w f hi hs, (dispatchBody_outcome w f hi).2.1 hd]; rfl
  · intro hi hd
    rw [main_outcome_up w f hi hs, (dispatchBody_outcome w f hi).2.2.1 hd]; rfl
  · intro hi h1 h2 h3
    rw [main_outcome_up w f hi hs, (dispatchBody_outcome w f hi).2.2.2 h1 h2 h3]; rfl

/-- C5, amended, at a login check that finds no logged-in user: exit code 2. -/
theorem exit_codes_by_outcome_witness :
    sessionUp World.loggedOut Flags.checkLogin.isHeadless ∧
    exitCode (main World.loggedOut Flags.checkLogin).outcome = 2 :=
  ⟨⟨rfl, rfl⟩,
   (exit_codes_by_outcome World.loggedOut Flags.checkLogin ⟨rfl, rfl⟩).2.2.2.1
     (by unfold invalidInput knownAction; decide) ⟨rfl, rfl⟩⟩

/-- C6. When the session is up and the login delegate is reached: if it
returns no error and reports a logged-in user, `checkLogin` prints
`STATUS: LOGGED_IN` and returns (exit code 0); if it returns no error and
reports no logged-in user, `checkLogin` prints `STATUS: NOT_LOGGED_IN` and
exits with code 2, which is neither 0 nor 1; and `checkLogin` ends with exit
code 1 exactly when the delegate returns an error. -/
theorem checkLogin_exit_signals (w : World) (headless : Bool) (hs : sessionUp w headless) :
    (w.checkLoginStatus = .ok true →
      Effect.print "STATUS: LOGGED_IN" ∈ (checkLogin w headless).trace ∧
      Effect.print "STATUS: NOT_LOGGED_IN" ∉ (checkLogin w headless).trace ∧
      (checkLogin w headless).outcome = .returned ∧
      exitCode (checkLogin w headless).outcome = 0) ∧
    (w.checkLoginStatus = .ok false →
      Effect.print "STATUS: NOT_LOGGED_IN" ∈ (checkLogin w headless).trace ∧
      Effect.print "STATUS: LOGGED_IN" ∉ (checkLogin w headless).trace ∧
      (checkLogin w headless).outcome = .exited 2 ∧
      exitCode (checkLogin w headless).outcome = 2 ∧
      exitCode (checkLogin w headless).outcome ≠ 0 ∧
      exitCode (checkLogin w headless).outcome ≠ 1) ∧
    (exitCode (checkLogin w headless).outcome = 1 ↔ ∃ err, w.checkLoginStatus = .error err) := by
  have hnp : ∀ s, Effect.print s ∉ (NewBrowser w headless []).1 := by
    intro s
    unfold NewBrowser
    simp only []
    split
    · simp
    · split
      · split
        · split <;> [split; skip] <;> simp
        · simp
      · simp
  rw [checkLogin_eq, sessionRun_up w headless _ hs]
  unfold checkLogin.body
  cases hd : w.checkLoginStatus with
  | error e => simp [exitCode]
  | ok b => cases b <;> simp [exitCode, hnp]

/-- C6 at a login check that finds no logged-in user. -/
theorem checkLogin_exit_signals_witness :
    sessionUp World.loggedOut true ∧
    Effect.print "STATUS: NOT_LOGGED_IN" ∈ (checkLogin World.loggedOut true).trace ∧
    exitCode (checkLogin World.loggedOut true).outcome = 2 :=
  ⟨⟨rfl, rfl⟩,
   ((checkLogin_exit_signals World.loggedOut true ⟨rfl, rfl⟩).2.1 rfl).1,
   ((checkLogin_exit_signals World.loggedOut true ⟨rfl, rfl⟩).2.1 rfl).2.2.2.1⟩

/-- C1 on the code: in the run `-action search -keyword tea` the session and
the page are created and the search delegate reports an error; `searchFeeds`
then ends the process with `os.Exit(1)`, and neither the page nor the control
channel is closed nor the launched process cleaned up. -/
theorem search_failure_skips_cleanup :
    sessionUp World.searchFails Flags.searchTea.isHeadless ∧
    delegateError World.searchFails Flags.searchTea ∧
    (main World.searchFails Flags.searchTea).trace
      = [.setenv "ROD_LEAKLESS" "false", .loadCookies,
         .launch (NewBrowser.launcher (configOf World.searchFails true [])),
         .connect "ws://127.0.0.1:9222/devtools/browser/1", .newPage,
         .delegate "Search" ["tea"], .logError "搜索失败: context deadline exceeded"] ∧
    (main World.searchFails Flags.searchTea).outcome = .exited 1 ∧
    releases (main World.searchFails Flags.searchTea).trace = [] :=
  ⟨⟨rfl, rfl⟩, Or.inr (Or.inl ⟨rfl, rfl⟩), by decide, rfl,
   exited_run_releases_nothing World.searchFails Flags.searchTea 1 rfl⟩

/-- C8 on the code: in the run `-action check_login` the session and the page
are created and the login delegate returns without error, reporting no
logged-in user; `checkLogin` then ends the process with `os.Exit(2)`, and no
release is issued at all. -/
theorem not_logged_in_skips_cleanup :
    sessionUp World.loggedOut Flags.checkLogin.isHeadless ∧
    World.loggedOut.checkLoginStatus = .ok false ∧
    (¬ delegateError World.loggedOut Flags.checkLogin) ∧
    (main World.loggedOut Flags.checkLogin).trace
      = [.setenv "ROD_LEAKLESS" "false", .loadCookies,
         .launch (NewBrowser.launcher (configOf World.loggedOut true [])),
         .connect "ws://127.0.0.1:9222/devtools/browser/1", .newPage,
         .delegate "CheckLoginStatus" [], .print "STATUS: NOT_LOGGED_IN"] ∧
    (main World.loggedOut Flags.checkLogin).outcome = .exited 2 ∧
    releases (main World.loggedOut Flags.checkLogin).trace = [] := by
  refine ⟨⟨rfl, rfl⟩, rfl, ?_, by decide, rfl,
    exited_run_releases_nothing World.loggedOut Flags.checkLogin 2 rfl⟩
  unfold delegateError
  decide

/-- A `Close` on a `Browser` with a nil handle skips the step of that handle. -/
theorem close_skips_nil_handles (rb : RodBrowser) (l : Launcher) :
    (Browser.Close { browser := none, launcher := some l }).1 = [.launcherCleanup] ∧
    (Browser.Close { browser := some rb, launcher := none }).1 = [.browserClose] ∧
    (Browser.Close { browser := none, launcher := none }).1 = [] :=
  ⟨rfl, rfl, rfl⟩

end Xhs
